import Mathlib

/-!
# Verification of the asyncio lecture-booking bot

A shallow embedding of the bot's core logic: the file utilities
(`read_lines_async`, `remove_line_from_file`), the reservation store
(`register_user`, `book_lecture`, `get_user_lectures`, `manage_lecture`),
the conversation state machine and message dispatch, the keyboard
file-listing helpers (`get_file_base_names` in both variants), the
`lru_cache` memoization, and an interleaving model of concurrent booking
attempts.

Modelling conventions: a file's content is its list of raw lines; the
two SQLite tables are lists of rows in insertion order (SQLite returns
rows of these index-free tables in rowid order, which is insertion
order, and row ids are `AUTOINCREMENT`); Python's `str.strip` and
code-point string comparison are modelled explicitly over `List Char`
so that the kernel can evaluate them on concrete inputs.
-/

namespace AsyncioBot

/-! ## Python string primitives -/

/-- Python `str.strip()` on the character list: drop leading and
trailing whitespace. -/
def stripChars (cs : List Char) : List Char :=
  ((cs.dropWhile Char.isWhitespace).reverse.dropWhile Char.isWhitespace).reverse

/-- Python `str.strip()`. -/
def pyStrip (s : String) : String := String.mk (stripChars s.toList)

/-- Lexicographic code-point comparison of character lists (Python's
`<=` on `str`). -/
def charListLe : List Char → List Char → Bool
  | [], _ => true
  | _ :: _, [] => false
  | a :: as, b :: bs =>
      if a.toNat = b.toNat then charListLe as bs
      else decide (a.toNat < b.toNat)

/-- Python's `<=` on strings: lexicographic on code points. -/
def pyStrLe (a b : String) : Bool := charListLe a.toList b.toList

/-! ## File utilities (src/bot.py lines 114-136, src/utils/file_utils.py) -/

/-- Function `read_lines_async`: reads a file and returns its non-empty stripped
lines (`[line.strip() for line in content.splitlines() if line.strip()]`). -/
def read_lines_async (content : List String) : List String :=
  (content.map pyStrip).filter (fun line => line != "")

/-- Function `remove_line_from_file` (src/bot.py 129-136): reads the lines of the
file via `read_lines_async` and writes back every line whose stripped
form differs from the stripped line to remove
(`[line for line in lines if line.strip() != line_to_remove.strip()]`).
Returns the list of lines written back. -/
def remove_line_from_file (fileLines : List String) (line_to_remove : String) : List String :=
  (read_lines_async fileLines).filter (fun line => pyStrip line != pyStrip line_to_remove)

/-- Modelled from the spec: "rewrites the roster file omitting the first
exact (trimmed) match of `lectureName`" — removes only the FIRST
stripped match, leaving all later lines (including duplicates of the
name) in place.  Used to compare the spec's description against
`remove_line_from_file`. -/
def removeFirstMatchSpec : List String → String → List String
  | [], _ => []
  | l :: ls, t => if pyStrip l = pyStrip t then ls else l :: removeFirstMatchSpec ls t

/-! ## Reservation store data model (src/bot.py `init_db`, lines 190-213) -/

/-- A row of the `users` table: `id INTEGER PRIMARY KEY AUTOINCREMENT,
telegram_id INTEGER UNIQUE, nickname TEXT`. -/
structure UserRow where
  id : Nat
  telegram_id : Nat
  nickname : String
  deriving Repr, DecidableEq

/-- A row of the `bookings` table: `id INTEGER PRIMARY KEY AUTOINCREMENT,
user_id INTEGER, lecture TEXT, direction TEXT`.  Note: the schema has no
UNIQUE constraint on `(direction, lecture)`. -/
structure BookingRow where
  id : Nat
  user_id : Nat
  lecture : String
  direction : String
  deriving Repr, DecidableEq

/-- The database: both tables as lists of rows in insertion (rowid)
order, together with the next `AUTOINCREMENT` ids. -/
structure DB where
  users : List UserRow
  nextUserId : Nat
  bookings : List BookingRow
  nextBookingId : Nat
  deriving Repr, DecidableEq

def emptyDB : DB := ⟨[], 1, [], 1⟩

/-- Method `BotService.register_user` (src/bot.py 215-227) and
`handlers/start.start`: `INSERT OR IGNORE INTO users (telegram_id,
nickname) VALUES (?, ?)` — a no-op when a row with this `telegram_id`
already exists (UNIQUE constraint), otherwise appends a fresh row. -/
def register_user (db : DB) (telegram_id : Nat) (nickname : String) : DB :=
  if db.users.any (fun u => u.telegram_id == telegram_id) then db
  else { db with
          users := db.users ++ [⟨db.nextUserId, telegram_id, nickname⟩],
          nextUserId := db.nextUserId + 1 }

/-- Statement `INSERT INTO bookings (user_id, lecture, direction) VALUES (?, ?, ?)`:
appends a row with the next `AUTOINCREMENT` id. -/
def insertBookingRow (db : DB) (user_id : Nat) (lecture direction : String) : DB :=
  { db with
    bookings := db.bookings ++ [⟨db.nextBookingId, user_id, lecture, direction⟩],
    nextBookingId := db.nextBookingId + 1 }

/-- True when `SELECT lecture FROM bookings WHERE direction = ? AND lecture = ?`
returns at least one row. -/
def isBooked (db : DB) (direction lecture : String) : Bool :=
  db.bookings.any (fun b => b.direction == direction && b.lecture == lecture)

/-- Failure modes of `BotService.book_lecture`:
`FileNotFoundError` ("Направление не найдено"), out-of-range
`ValueError` ("Некорректный номер лекции"), and already-booked
`ValueError` ("Лекция уже забронирована"). -/
inductive BookErr
  | notFound
  | invalidSelection
  | conflict
  deriving Repr, DecidableEq

/-- Method `BotService.book_lecture` (src/bot.py 270-294): `roster` is
`some rawLines` when `lections/{direction}.txt` exists (with those raw
lines), `none` when it does not.  Reads the roster, bounds-checks the
1-based index, resolves the selected lecture, performs the
check-then-insert against the `bookings` table, and returns the selected
lecture together with the updated database. -/
def book_lecture (roster : Option (List String)) (db : DB) (user_id : Nat)
    (direction : String) (lecture_number : Nat) : Except BookErr (DB × String) :=
  match roster with
  | none => .error .notFound
  | some rawLines =>
      let lectures := read_lines_async rawLines
      if 1 ≤ lecture_number ∧ lecture_number ≤ lectures.length then
        let selected := lectures.getD (lecture_number - 1) ""
        if isBooked db direction selected then
          .error .conflict
        else
          .ok (insertBookingRow db user_id selected direction, selected)
      else
        .error .invalidSelection

/-- Method `BotService.get_user_lectures` (src/bot.py 296-306):
`SELECT id, lecture, direction FROM bookings WHERE user_id = ?` — the
rows of the `bookings` table belonging to `user_id`, in rowid order. -/
def get_user_lectures (db : DB) (user_id : Nat) : List BookingRow :=
  db.bookings.filter (fun b => b.user_id == user_id)

/-! ## `manage_lecture` (src/bot.py 308-332) and its callback handler -/

/-- The roster directory, as a map from direction name to the raw lines
of `lections/{direction}.txt` (`none` when the file does not exist). -/
abbrev RosterFS := String → Option (List String)

/-- The result message built at the end of `manage_lecture`. -/
def manageMessage (action lecture_name : String) : String :=
  if action == "complete" then "✅ Лекция *'" ++ lecture_name ++ "'* завершена!"
  else "🔄 Лекция *'" ++ lecture_name ++ "'* отменена."

/-- How a `manage_lecture` call ends: `notFound` is the
`ValueError("Лекция не найдена.")` raised before any deletion;
`ioError` is an exception raised by `remove_line_from_file` while
rewriting the roster file, after the row deletion was committed;
`ok` carries the result message and the lecture name. -/
inductive ManageOutcome
  | notFound
  | ioError
  | ok (result_message : String) (lecture : String)
  deriving Repr, DecidableEq

/-- Method `BotService.manage_lecture` (src/bot.py 308-332): look up the
booking scoped to the calling user (`WHERE id = ? AND user_id = ?`);
raise if absent; delete the row and commit; then, if the roster file
exists, rewrite it with `remove_line_from_file` (the rewrite may fail,
modelled by `writeFails`; the exception propagates but the committed
deletion stays).  Returns the outcome together with the database and
roster-directory states after the call. -/
def manage_lecture (db : DB) (fs : RosterFS) (writeFails : Bool)
    (user_id lecture_id : Nat) (action : String) :
    ManageOutcome × DB × RosterFS :=
  match db.bookings.find? (fun b => b.id == lecture_id && b.user_id == user_id) with
  | none => (.notFound, db, fs)
  | some row =>
      let db1 : DB :=
        { db with
          bookings := db.bookings.filter (fun b => !(b.id == lecture_id && b.user_id == user_id)) }
      match fs row.direction with
      | none => (.ok (manageMessage action row.lecture) row.lecture, db1, fs)
      | some fileLines =>
          if writeFails then (.ioError, db1, fs)
          else
            (.ok (manageMessage action row.lecture) row.lecture, db1,
             fun d => if d == row.direction
                      then some (remove_line_from_file fileLines row.lecture)
                      else fs d)

/-- What `manage_lecture_callback_handler` shows the user: `edited` is
`call.message.edit_text(result_message)` followed by
`call.answer("✅ Действие выполнено!")`; `alertError` is the `except`
branch, `call.answer("❌ Ошибка при выполнении действия.",
show_alert=True)`. -/
inductive CallbackReply
  | edited (text : String)
  | alertError
  deriving Repr, DecidableEq

/-- Handler `manage_lecture_callback_handler` (src/bot.py 487-500): calls
`manage_lecture` inside `try`; on success edits the message with the
result; any exception (`ValueError` from a missing booking, or an I/O
error from the roster rewrite) is caught, logged and answered with a
generic error alert. -/
def manage_lecture_callback_handler (db : DB) (fs : RosterFS) (writeFails : Bool)
    (user_id lecture_id : Nat) (action : String) :
    DB × RosterFS × CallbackReply :=
  match manage_lecture db fs writeFails user_id lecture_id action with
  | (.ok msg _, db1, fs1) => (db1, fs1, .edited msg)
  | (.notFound, db1, fs1) => (db1, fs1, .alertError)
  | (.ioError, db1, fs1) => (db1, fs1, .alertError)

/-! ## Conversation state machine and message dispatch
(src/bot.py `register_handlers`, lines 346-511) -/

/-- aiogram FSM state of a user: `idle` is the default `None` state;
the other two are `BookingState.waiting_for_direction` and
`BookingState.waiting_for_lecture`. -/
inductive ConvState
  | idle
  | waiting_for_direction
  | waiting_for_lecture
  deriving Repr, DecidableEq

/-- Per-user aiogram session: the FSM state plus the `direction` key of
the FSM data dict (set by `state.update_data(direction=...)`, cleared
only by `state.clear()`). -/
structure Session where
  state : ConvState
  direction : Option String
  deriving Repr, DecidableEq

def initialSession : Session := ⟨.idle, none⟩

/-- The inbound messages relevant to the booking flow, pre-classified by
the dispatch predicates they match: the "📅 Доступные лекции" button, a
text equal to a known direction name, a purely numeric text
(`msg.text.isdigit()`), and the "🔙 Возврат в меню" button. -/
inductive Msg
  | availableLectures
  | directionName (d : String)
  | numeric (n : Nat)
  | returnToMenu

/-- The user-visible replies of the booking-flow handlers. -/
inductive Reply
  | directionsMenu
  | rosterShown (direction : String)
  | directionNotFound (direction : String)
  | noDirectionChosen
  | booked (lecture : String)
  | bookFailed (e : BookErr)
  | backToMenu
  | unmatched
  deriving Repr, DecidableEq

/-- One dispatch step of the booking flow (src/bot.py 423-466, 502-509).
`rosterOf` is the current roster directory; `directions` is the cached
direction listing used by the dispatch predicate of
`show_lectures_handler`.

* `available_lectures_handler` sets `waiting_for_direction`; aiogram's
  `set_state` leaves the FSM data (the stored `direction`) untouched.
* `show_lectures_handler` fires when the text is in the direction
  listing; on success it stores the direction and sets
  `waiting_for_lecture`; if the roster file vanished it only replies.
* `book_lecture_handler` is dispatched on `msg.text.isdigit()` alone —
  there is no state filter; it proceeds whenever the FSM data holds a
  direction, and `state.clear()`s on success.
* `return_to_menu_handler` in src/bot.py does not clear the state. -/
def step (rosterOf : RosterFS) (directions : List String) (db : DB)
    (user_id : Nat) (sess : Session) (m : Msg) : DB × Session × Reply :=
  match m with
  | .availableLectures =>
      (db, { sess with state := .waiting_for_direction }, .directionsMenu)
  | .directionName d =>
      if directions.contains d then
        match rosterOf d with
        | some _ => (db, ⟨.waiting_for_lecture, some d⟩, .rosterShown d)
        | none => (db, sess, .directionNotFound d)
      else (db, sess, .unmatched)
  | .numeric n =>
      match sess.direction with
      | none => (db, sess, .noDirectionChosen)
      | some dir =>
          match book_lecture (rosterOf dir) db user_id dir n with
          | .ok (db1, sel) => (db1, initialSession, .booked sel)
          | .error e => (db, sess, .bookFailed e)
  | .returnToMenu =>
      (db, sess, .backToMenu)

/-- Run a sequence of inbound messages from one user through `step`,
discarding the replies. -/
def runTrace (rosterOf : RosterFS) (directions : List String) (user_id : Nat) :
    DB × Session → List Msg → DB × Session
  | s, [] => s
  | (db, sess), m :: ms =>
      let r := step rosterOf directions db user_id sess m
      runTrace rosterOf directions user_id (r.1, r.2.1) ms

/-! ## File-listing helpers (src/utils/file_utils.py 5-10 and
src/bot.py `KeyboardBuilder.get_file_base_names`, 145-152) -/

/-- Split a file name at its LAST dot: `some (before, fromDot)` when a
dot exists, `none` otherwise. -/
def splitAtLastDot : List Char → Option (List Char × List Char)
  | [] => none
  | c :: rest =>
      match splitAtLastDot rest with
      | some (before, ext) => some (c :: before, ext)
      | none => if c == '.' then some ([], '.' :: rest) else none

/-- Python `os.path.splitext(f)[0]`: the name without its extension; a file
name whose characters before the last dot are all dots (e.g.
`.hidden`) has no extension. -/
def splitextRoot (f : String) : String :=
  match splitAtLastDot f.toList with
  | none => f
  | some (before, _) => if before.any (fun c => c != '.') then String.mk before else f

/-- Python `f.endswith(e)`. -/
def pyEndsWith (f : String) (ext : String) : Bool :=
  ext.toList.isSuffixOf f.toList

/-- Python `pathlib.PurePath.suffix`: `name[i:]` for `i = name.rfind('.')`
when `0 < i < len(name) - 1`, else the empty string. -/
def pathSuffix (f : String) : String :=
  match splitAtLastDot f.toList with
  | none => ""
  | some (before, ext) =>
      if before ≠ [] ∧ 2 ≤ ext.length then String.mk ext else ""

/-- Python `pathlib.PurePath.stem`: the final component without its suffix. -/
def pathStem (f : String) : String :=
  match splitAtLastDot f.toList with
  | none => f
  | some (before, ext) =>
      if before ≠ [] ∧ 2 ≤ ext.length then String.mk before else f

/-- Insert into an ascending (code-point order) list — one step of the
stable ascending sort performed by Python's `sorted`. -/
def insortAsc (x : String) : List String → List String
  | [] => [x]
  | y :: ys => if pyStrLe x y then x :: y :: ys else y :: insortAsc x ys

/-- Python's `sorted` on strings: a stable ascending sort by code-point
order. -/
def pySorted (l : List String) : List String := l.foldr insortAsc []

/-- Function `utils.file_utils.get_file_base_names` (src/utils/file_utils.py
5-10): `[os.path.splitext(f)[0] for f in os.listdir(folder) if
f.endswith(extensions)]` — base names of matching files in
directory-listing order, NOT sorted.  `listing` is the `os.listdir`
result. -/
def file_utils_get_file_base_names (listing : List String) (extensions : List String) :
    List String :=
  (listing.filter (fun f => extensions.any (fun e => pyEndsWith f e))).map splitextRoot

/-- Method `KeyboardBuilder.get_file_base_names` (src/bot.py 145-152), the
body under the `lru_cache`: `sorted([file.stem for file in
folder.iterdir() if file.suffix in extensions])`. -/
def keyboard_get_file_base_names (listing : List String) (extensions : List String) :
    List String :=
  pySorted ((listing.filter (fun f => extensions.contains (pathSuffix f))).map pathStem)

/-- Python `folder.mkdir(exist_ok=True)` / `os.makedirs(folder, exist_ok=True)`
on the set of existing directories: creates the directory when absent
and never fails when it already exists. -/
def mkdirExistOk (dirs : List String) (d : String) : List String :=
  if dirs.contains d then dirs else d :: dirs

/-! ## `lru_cache` memoization of `KeyboardBuilder.get_file_base_names`
(src/bot.py 145-152) -/

/-- The `lru_cache(maxsize=None)` cache: argument pair
`(folder, extensions)` mapped to the memoized result. -/
abbrev ListingCache := List ((String × List String) × List String)

/-- One call to the cached `KeyboardBuilder.get_file_base_names`:
return the memoized result when the argument pair has been seen,
otherwise list the directory now (`listdir` is the current filesystem
state) and memoize. -/
def cached_get_file_base_names (cache : ListingCache) (listdir : String → List String)
    (folder : String) (extensions : List String) : List String × ListingCache :=
  match cache.find? (fun kv => kv.1 == (folder, extensions)) with
  | some kv => (kv.2, cache)
  | none =>
      let r := keyboard_get_file_base_names (listdir folder) extensions
      (r, cache ++ [((folder, extensions), r)])

/-- Run a sequence of calls for one argument pair, each against a
possibly different filesystem state, threading the cache. -/
def runCachedCalls (folder : String) (extensions : List String) :
    ListingCache → List (String → List String) → List (List String) × ListingCache
  | cache, [] => ([], cache)
  | cache, fs :: rest =>
      let rc := cached_get_file_base_names cache fs folder extensions
      let rs := runCachedCalls folder extensions rc.2 rest
      (rc.1 :: rs.1, rs.2)

/-! ## Interleaving model of concurrent booking attempts
(src/bot.py 281-292 / src/handlers/lectures.py 76-89)

The check-then-insert of `book_lecture` runs two separate awaited
statements against the store: the `SELECT` conflict check and the
`INSERT`.  Each concurrent attempt is a task that performs these as two
atomic steps; the asyncio event loop may interleave the steps of
different tasks arbitrarily at the `await` points. -/

/-- Where a booking-attempt task is: `ready` — about to run the
`SELECT` conflict check; `passed` — the check found no row, about to
run the `INSERT`; `done success` — finished, raising the "already
booked" error when `success = false`. -/
inductive TPhase
  | ready
  | passed
  | done (success : Bool)
  deriving Repr, DecidableEq

/-- One atomic step of a booking attempt for the pair
`(direction, lecture)` by user `uid`. -/
def attemptStep (direction lecture : String) (db : DB) (uid : Nat) :
    TPhase → DB × TPhase
  | .ready => if isBooked db direction lecture then (db, .done false) else (db, .passed)
  | .passed => (insertBookingRow db uid lecture direction, .done true)
  | .done s => (db, .done s)

/-- Run the scheduler: `tasks` are the concurrent attempts (user id and
phase); the schedule names, in order, which task performs its next
atomic step. -/
def runSchedule (direction lecture : String) :
    DB → List (Nat × TPhase) → List Nat → DB × List (Nat × TPhase)
  | db, tasks, [] => (db, tasks)
  | db, tasks, i :: rest =>
      match tasks[i]? with
      | none => runSchedule direction lecture db tasks rest
      | some (uid, ph) =>
          let r := attemptStep direction lecture db uid ph
          runSchedule direction lecture r.1 (tasks.set i (uid, r.2)) rest

/-! ## Statement helpers and concrete scenarios -/

/-- Adjacent-pairs ascending sortedness in Python's code-point string
order — the executable reading of "sorted in ascending order". -/
def ascSorted : List String → Bool
  | [] => true
  | [_] => true
  | a :: b :: rest => pyStrLe a b && ascSorted (b :: rest)

/-- Well-formedness of the `bookings` table maintained by SQLite's
`AUTOINCREMENT`: rowids strictly increase along the table and stay
below the next id to hand out. -/
def BookingsWF (db : DB) : Prop :=
  db.bookings.Pairwise (fun a b => a.id < b.id)
  ∧ ∀ b ∈ db.bookings, b.id < db.nextBookingId

/-- A roster directory holding one direction `Math` with two lectures. -/
def mathRoster : RosterFS :=
  fun d => if d == "Math" then some ["Calculus", "Algebra"] else none

/-- A database holding one booking: user 7 booked `Calculus` in `Math`. -/
def dbOneBooking : DB := ⟨[], 1, [⟨1, 7, "Calculus", "Math"⟩], 2⟩

/-- A roster directory whose `Math` file still lists `Calculus`. -/
def fsCalculus : RosterFS :=
  fun d => if d == "Math" then some ["Calculus"] else none

/-! # Claims -/

/-- Claim C1. The claim: of K concurrent `insertBooking` attempts for the
same `(direction, lecture)` pair, exactly one succeeds and the others
fail with Conflict, so at most one live booking row ever exists for the
pair.  The code violates this: the schema has no UNIQUE constraint on
`(direction, lecture)` and the check-then-insert is two separately
awaited statements, so the interleaving check/check/insert/insert lets
BOTH of two concurrent attempts succeed, leaving two live rows for the
pair.  The sequential interleaving, by contrast, gives one success and
one conflict. -/
theorem C1_concurrent_booking_race :
    (((runSchedule "Math" "Calculus" emptyDB [(1, .ready), (2, .ready)]
          [0, 1, 0, 1]).1.bookings.filter
        (fun b => b.direction == "Math" && b.lecture == "Calculus")).length = 2
      ∧ (runSchedule "Math" "Calculus" emptyDB [(1, .ready), (2, .ready)] [0, 1, 0, 1]).2
          = [(1, .done true), (2, .done true)])
    ∧ (((runSchedule "Math" "Calculus" emptyDB [(1, .ready), (2, .ready)]
          [0, 0, 1, 1]).1.bookings.filter
        (fun b => b.direction == "Math" && b.lecture == "Calculus")).length = 1
      ∧ (runSchedule "Math" "Calculus" emptyDB [(1, .ready), (2, .ready)] [0, 0, 1, 1]).2
          = [(1, .done true), (2, .done false)]) := by
  decide

/-- Claim C5. The claim: a purely numeric message received in `Idle` or
`AwaitingDirection` is ignored — never books and never changes state —
because dispatch is gated on the current state.  The code violates
this: `book_lecture_handler` is dispatched on `msg.text.isdigit()`
alone, and `available_lectures_handler` re-enters
`waiting_for_direction` without clearing the FSM data, so after the
trace (open booking menu, select `Math`, open booking menu again) the
user is in `waiting_for_direction` with stale direction data, and a
numeric message then inserts a booking row and clears the session. -/
theorem C5_numeric_books_in_awaiting_direction :
    (runTrace mathRoster ["Math"] 7 (emptyDB, initialSession)
        [.availableLectures, .directionName "Math", .availableLectures]
      = (emptyDB, ⟨.waiting_for_direction, some "Math"⟩))
    ∧ (step mathRoster ["Math"] emptyDB 7 ⟨.waiting_for_direction, some "Math"⟩ (.numeric 1)
      = ({ emptyDB with bookings := [⟨1, 7, "Calculus", "Math"⟩], nextBookingId := 2 },
         initialSession, .booked "Calculus")) := by
  decide

/-- Counterexample to claim C2. The claim says `remove_line_from_file`
omits only the FIRST stripped match, leaving later duplicates.  On the
file `["A", "B", "A"]` with target `"A"` the code removes BOTH copies,
while the first-match-only behaviour described by the spec would keep
the second. -/
theorem C2_counterexample :
    remove_line_from_file ["A", "B", "A"] "A" = ["B"]
    ∧ removeFirstMatchSpec ["A", "B", "A"] "A" = ["B", "A"]
    ∧ remove_line_from_file ["A", "B", "A"] "A"
        ≠ removeFirstMatchSpec ["A", "B", "A"] "A" := by
  decide

/-- Counterexample to claim C8. The claim says that when the roster rewrite
fails after the committed row deletion, the user-visible outcome is
still success.  With user 7's booking of `Calculus` present, the roster
file existing, and the rewrite failing, the callback handler's `except`
branch answers with the generic error alert — not a success message —
even though the booking row is indeed gone. -/
theorem C8_counterexample :
    (manage_lecture_callback_handler dbOneBooking fsCalculus true 7 1 "complete").2.2
      = .alertError
    ∧ (manage_lecture_callback_handler dbOneBooking fsCalculus true 7 1 "complete").1.bookings
      = [] := by
  decide

/-- Counterexample to claim C9. The claim says both listing helpers return
base names sorted ascending.  `utils.file_utils.get_file_base_names`
does not sort: on the directory listing `["b.txt", "a.txt"]` it returns
`["b", "a"]`, which differs from its ascending sort. -/
theorem C9_counterexample :
    file_utils_get_file_base_names ["b.txt", "a.txt"] [".txt"] = ["b", "a"]
    ∧ pySorted ["b", "a"] = ["a", "b"]
    ∧ file_utils_get_file_base_names ["b.txt", "a.txt"] [".txt"]
        ≠ pySorted (file_utils_get_file_base_names ["b.txt", "a.txt"] [".txt"]) := by
  decide

/-- Claim C2 amended. `remove_line_from_file` removes EVERY line whose
stripped form equals the stripped lecture name (not only the first):
no surviving line matches, the surviving lines keep their relative
order within the normalized (stripped, non-empty) line list, every
non-matching normalized line is retained with its exact multiplicity
(matching lines drop to multiplicity zero), and when no line matches
the normalized line list is written back unchanged.  Order (the
sublist) together with per-line multiplicity determines the result
uniquely. -/
theorem C2_removes_all_matches (fileLines : List String) (t : String) :
    (∀ l ∈ remove_line_from_file fileLines t, pyStrip l ≠ pyStrip t)
    ∧ List.Sublist (remove_line_from_file fileLines t) (read_lines_async fileLines)
    ∧ (∀ l, (remove_line_from_file fileLines t).count l
        = if pyStrip l = pyStrip t then 0 else (read_lines_async fileLines).count l)
    ∧ ((∀ l ∈ read_lines_async fileLines, pyStrip l ≠ pyStrip t) →
        remove_line_from_file fileLines t = read_lines_async fileLines) := by
  refine ⟨?_, List.filter_sublist _, ?_, ?_⟩
  · intro l hl
    have hp := (List.mem_filter.mp hl).2
    simpa [bne_iff_ne] using hp
  · intro l
    by_cases hl : pyStrip l = pyStrip t
    · rw [if_pos hl]
      rw [List.count_eq_zero]
      intro hmem
      have hp := (List.mem_filter.mp hmem).2
      rw [hl] at hp
      simp at hp
    · rw [if_neg hl]
      rw [remove_line_from_file, List.count_filter]
      simp [hl]
  · intro h
    apply List.filter_eq_self.mpr
    intro a ha
    simpa [bne_iff_ne] using h a ha

/-- Witness for C2: a file whose normalized lines avoid the target, so
every line is retained with its multiplicity and the rewrite is the
identity on the normalized lines. -/
theorem C2_removes_all_matches_witness :
    (∀ l ∈ remove_line_from_file ["Calculus", "Algebra"] "Topology",
        pyStrip l ≠ pyStrip "Topology")
    ∧ List.Sublist (remove_line_from_file ["Calculus", "Algebra"] "Topology")
        (read_lines_async ["Calculus", "Algebra"])
    ∧ (∀ l, (remove_line_from_file ["Calculus", "Algebra"] "Topology").count l
        = if pyStrip l = pyStrip "Topology" then 0
          else (read_lines_async ["Calculus", "Algebra"]).count l)
    ∧ ((∀ l ∈ read_lines_async ["Calculus", "Algebra"], pyStrip l ≠ pyStrip "Topology") →
        remove_line_from_file ["Calculus", "Algebra"] "Topology"
          = read_lines_async ["Calculus", "Algebra"]) :=
  C2_removes_all_matches ["Calculus", "Algebra"] "Topology"

/-- Claim C3. `register_user` is insert-or-ignore, not upsert: starting
from a database without `tid`, registering twice with the same
`telegram_id` and different nicknames leaves the second call a no-op,
adds exactly one user row, and the stored nickname for `tid` is the one
from the first call. -/
theorem C3_register_insert_or_ignore (db : DB) (tid : Nat) (n1 n2 : String)
    (h : ∀ u ∈ db.users, u.telegram_id ≠ tid) :
    register_user (register_user db tid n1) tid n2 = register_user db tid n1
    ∧ (register_user db tid n1).users.length = db.users.length + 1
    ∧ ((register_user (register_user db tid n1) tid n2).users.filter
        (fun u => u.telegram_id == tid)).map (fun u => u.nickname) = [n1] := by
  have hany : db.users.any (fun u => u.telegram_id == tid) = false := by
    simp only [List.any_eq_false, beq_iff_eq]
    exact h
  have e1 : register_user db tid n1
      = { db with users := db.users ++ [⟨db.nextUserId, tid, n1⟩],
                  nextUserId := db.nextUserId + 1 } := by
    simp [register_user, hany]
  have hany2 : (register_user db tid n1).users.any (fun u => u.telegram_id == tid) = true := by
    rw [e1]
    simp
  have e2 : register_user (register_user db tid n1) tid n2 = register_user db tid n1 := by
    rw [register_user, if_pos hany2]
  refine ⟨e2, ?_, ?_⟩
  · rw [e1]
    simp
  · rw [e2, e1]
    have hnil : db.users.filter (fun u => u.telegram_id == tid) = [] := by
      simp only [List.filter_eq_nil_iff, beq_iff_eq]
      exact h
    simp [List.filter_append, hnil]

/-- Witness for C3: registering user 42 as "alice" then as "bob" keeps
the nickname "alice". -/
theorem C3_register_insert_or_ignore_witness :
    register_user (register_user emptyDB 42 "alice") 42 "bob"
      = register_user emptyDB 42 "alice"
    ∧ (register_user emptyDB 42 "alice").users.length = emptyDB.users.length + 1
    ∧ ((register_user (register_user emptyDB 42 "alice") 42 "bob").users.filter
        (fun u => u.telegram_id == 42)).map (fun u => u.nickname) = ["alice"] :=
  C3_register_insert_or_ignore emptyDB 42 "alice" "bob" (by simp [emptyDB])

/-- Whatever branch `manage_lecture` takes, the `bookings` table it
leaves behind is either unchanged or the scoped deletion's filter. -/
theorem manage_lecture_bookings_eq (db : DB) (fs : RosterFS) (w : Bool)
    (uid lid : Nat) (action : String) :
    (manage_lecture db fs w uid lid action).2.1.bookings = db.bookings
    ∨ (manage_lecture db fs w uid lid action).2.1.bookings
        = db.bookings.filter (fun x => !(x.id == lid && x.user_id == uid)) := by
  unfold manage_lecture
  cases hfind : db.bookings.find? (fun x => x.id == lid && x.user_id == uid) with
  | none => left; rfl
  | some row =>
      cases hfs : fs row.direction with
      | none => right; simp [hfs]
      | some lines => cases w <;> (right; simp [hfs])

/-- Claim C7. `manage_lecture` is scoped to the owning user: when no
booking with the given id belongs to the caller, it fails with the
not-found error and leaves the database and roster directory unchanged;
and no call by this user — whatever the id — ever deletes a booking row
owned by a different user. -/
theorem C7_manage_scoped_to_owner (db : DB) (fs : RosterFS) (w : Bool)
    (uid lid lid' : Nat) (action action' : String) (b : BookingRow)
    (hnone : ∀ x ∈ db.bookings, ¬(x.id = lid ∧ x.user_id = uid))
    (hb : b ∈ db.bookings) (hother : b.user_id ≠ uid) :
    manage_lecture db fs w uid lid action = (.notFound, db, fs)
    ∧ b ∈ (manage_lecture db fs w uid lid' action').2.1.bookings := by
  constructor
  · have hfind : db.bookings.find? (fun x => x.id == lid && x.user_id == uid) = none := by
      simp only [List.find?_eq_none, Bool.and_eq_true, beq_iff_eq, not_and]
      intro x hx h1 h2
      exact hnone x hx ⟨h1, h2⟩
    simp [manage_lecture, hfind]
  · have hpred : (b.user_id == uid) = false := by simpa using hother
    have hmem : b ∈ db.bookings.filter (fun x => !(x.id == lid' && x.user_id == uid)) :=
      List.mem_filter.mpr ⟨hb, by simp [hpred]⟩
    rcases manage_lecture_bookings_eq db fs w uid lid' action' with hcase | hcase
    · rw [hcase]; exact hb
    · rw [hcase]; exact hmem

/-- Witness for C7: user 7 cannot touch user 99's booking. -/
theorem C7_manage_scoped_to_owner_witness :
    manage_lecture dbOneBooking fsCalculus false 99 1 "cancel"
      = (.notFound, dbOneBooking, fsCalculus)
    ∧ (⟨1, 7, "Calculus", "Math"⟩ : BookingRow)
        ∈ (manage_lecture dbOneBooking fsCalculus false 99 1 "cancel").2.1.bookings :=
  C7_manage_scoped_to_owner dbOneBooking fsCalculus false 99 1 1 "cancel" "cancel"
    ⟨1, 7, "Calculus", "Math"⟩ (by decide) (by decide) (by decide)

/-- Claim C8 amended. When the roster-file rewrite fails after the
booking-row deletion was committed, the deletion is NOT rolled back —
the database the handler leaves behind has the row filtered out — but
the exception propagates to `manage_lecture_callback_handler`, whose
`except` branch logs it and answers with a generic error alert: the
user-visible outcome is an error, not success. -/
theorem C8_deletion_survives_file_failure (db : DB) (fs : RosterFS)
    (uid lid : Nat) (action : String) (row : BookingRow) (lines : List String)
    (hfind : db.bookings.find? (fun b => b.id == lid && b.user_id == uid) = some row)
    (hfile : fs row.direction = some lines) :
    manage_lecture_callback_handler db fs true uid lid action
      = ({ db with bookings :=
            db.bookings.filter (fun b => !(b.id == lid && b.user_id == uid)) },
         fs, .alertError) := by
  simp [manage_lecture_callback_handler, manage_lecture, hfind, hfile]

/-- Witness for C8: user 7 completes booking 1 while the rewrite of
`Math.txt` fails — the row is gone and the user sees the error alert. -/
theorem C8_deletion_survives_file_failure_witness :
    manage_lecture_callback_handler dbOneBooking fsCalculus true 7 1 "complete"
      = ({ dbOneBooking with bookings :=
            dbOneBooking.bookings.filter (fun b => !(b.id == 1 && b.user_id == 7)) },
         fsCalculus, .alertError) :=
  C8_deletion_survives_file_failure dbOneBooking fsCalculus 7 1 "complete"
    ⟨1, 7, "Calculus", "Math"⟩ ["Calculus"] (by decide) (by decide)

/-- Claim C4. Booking the same in-range index twice sequentially: the
first `book_lecture` succeeds and inserts the selected lecture, the
second fails with the already-booked conflict — and at the handler
level the conflict reply leaves both the database and the conversation
session exactly as they were (no partial write, no state change). -/
theorem C4_book_twice_success_then_conflict (rosterOf : RosterFS) (raw : List String)
    (db : DB) (uid uid' : Nat) (dir : String) (n : Nat) (sess : Session)
    (directions : List String)
    (hro : rosterOf dir = some raw)
    (hlo : 1 ≤ n) (hhi : n ≤ (read_lines_async raw).length)
    (hfree : isBooked db dir ((read_lines_async raw).getD (n - 1) "") = false)
    (hsess : sess.direction = some dir) :
    book_lecture (some raw) db uid dir n
      = .ok (insertBookingRow db uid ((read_lines_async raw).getD (n - 1) "") dir,
             (read_lines_async raw).getD (n - 1) "")
    ∧ book_lecture (some raw)
        (insertBookingRow db uid ((read_lines_async raw).getD (n - 1) "") dir) uid' dir n
      = .error .conflict
    ∧ step rosterOf directions
        (insertBookingRow db uid ((read_lines_async raw).getD (n - 1) "") dir)
        uid' sess (.numeric n)
      = (insertBookingRow db uid ((read_lines_async raw).getD (n - 1) "") dir,
         sess, .bookFailed .conflict) := by
  have hcond : 1 ≤ n ∧ n ≤ (read_lines_async raw).length := ⟨hlo, hhi⟩
  have h1 : book_lecture (some raw) db uid dir n
      = .ok (insertBookingRow db uid ((read_lines_async raw).getD (n - 1) "") dir,
             (read_lines_async raw).getD (n - 1) "") := by
    simp only [book_lecture]
    rw [if_pos hcond, hfree]
    simp
  have hbooked : isBooked (insertBookingRow db uid ((read_lines_async raw).getD (n - 1) "") dir)
      dir ((read_lines_async raw).getD (n - 1) "") = true := by
    simp [isBooked, insertBookingRow]
  have h2 : book_lecture (some raw)
      (insertBookingRow db uid ((read_lines_async raw).getD (n - 1) "") dir) uid' dir n
      = .error .conflict := by
    simp only [book_lecture]
    rw [if_pos hcond, hbooked]
    simp
  refine ⟨h1, h2, ?_⟩
  simp only [step, hsess, hro, h2]

/-- Witness for C4: booking lecture 1 of `Math` twice. -/
theorem C4_book_twice_success_then_conflict_witness :
    book_lecture (some ["Calculus", "Algebra"]) emptyDB 7 "Math" 1
      = .ok (insertBookingRow emptyDB 7
              ((read_lines_async ["Calculus", "Algebra"]).getD 0 "") "Math",
             (read_lines_async ["Calculus", "Algebra"]).getD 0 "")
    ∧ book_lecture (some ["Calculus", "Algebra"])
        (insertBookingRow emptyDB 7
          ((read_lines_async ["Calculus", "Algebra"]).getD 0 "") "Math") 8 "Math" 1
      = .error .conflict
    ∧ step mathRoster ["Math"]
        (insertBookingRow emptyDB 7
          ((read_lines_async ["Calculus", "Algebra"]).getD 0 "") "Math")
        8 ⟨.waiting_for_lecture, some "Math"⟩ (.numeric 1)
      = (insertBookingRow emptyDB 7
          ((read_lines_async ["Calculus", "Algebra"]).getD 0 "") "Math",
         ⟨.waiting_for_lecture, some "Math"⟩, .bookFailed .conflict) :=
  C4_book_twice_success_then_conflict mathRoster ["Calculus", "Algebra"] emptyDB 7 8
    "Math" 1 ⟨.waiting_for_lecture, some "Math"⟩ ["Math"]
    (by decide) (by decide) (by decide) (by decide) (by decide)

/-- Inserting a booking preserves the `AUTOINCREMENT` well-formedness
of the `bookings` table. -/
theorem insertBookingRow_wf (db : DB) (uid : Nat) (lect dir : String)
    (h : BookingsWF db) : BookingsWF (insertBookingRow db uid lect dir) := by
  obtain ⟨hpair, hlt⟩ := h
  constructor
  · rw [insertBookingRow]
    rw [List.pairwise_append]
    refine ⟨hpair, by simp, ?_⟩
    intro a ha b hb
    simp only [List.mem_singleton] at hb
    subst hb
    exact hlt a ha
  · intro b hb
    rw [insertBookingRow] at hb
    simp only [List.mem_append, List.mem_singleton] at hb
    rcases hb with hb | hb
    · exact Nat.lt_succ_of_lt (hlt b hb)
    · subst hb
      exact Nat.lt_succ_self _

/-- Claim C6. `get_user_lectures` returns exactly the caller's bookings:
every returned row has `user_id = uid` AND every row of the table with
`user_id = uid` appears in the result, with its exact multiplicity —
as a sublist of the table (so in insertion order), with rowids strictly
ascending whenever the table is `AUTOINCREMENT`-well-formed. -/
theorem C6_user_bookings_scoped_and_ordered (db : DB) (uid : Nat) (h : BookingsWF db) :
    (∀ b ∈ get_user_lectures db uid, b.user_id = uid)
    ∧ (∀ b ∈ db.bookings, b.user_id = uid → b ∈ get_user_lectures db uid)
    ∧ (∀ b : BookingRow, b.user_id = uid →
        (get_user_lectures db uid).count b = db.bookings.count b)
    ∧ (get_user_lectures db uid).Pairwise (fun a b => a.id < b.id)
    ∧ List.Sublist (get_user_lectures db uid) db.bookings := by
  refine ⟨?_, ?_, ?_, ?_, List.filter_sublist _⟩
  · intro b hb
    have hp := (List.mem_filter.mp hb).2
    simpa using hp
  · intro b hb hbu
    exact List.mem_filter.mpr ⟨hb, by simp [hbu]⟩
  · intro b hbu
    rw [get_user_lectures, List.count_filter]
    simp [hbu]
  · exact List.Pairwise.sublist (List.filter_sublist _) h.1

/-- Witness for C6: a table holding bookings of users 7 and 9 — user
7's single booking is returned, user 9's is not. -/
theorem C6_user_bookings_scoped_and_ordered_witness :
    (∀ b ∈ get_user_lectures ⟨[], 1, [⟨1, 7, "a", "d"⟩, ⟨2, 9, "b", "d"⟩], 3⟩ 7,
        b.user_id = 7)
    ∧ (∀ b ∈ DB.bookings ⟨[], 1, [⟨1, 7, "a", "d"⟩, ⟨2, 9, "b", "d"⟩], 3⟩,
        b.user_id = 7 → b ∈ get_user_lectures ⟨[], 1, [⟨1, 7, "a", "d"⟩, ⟨2, 9, "b", "d"⟩], 3⟩ 7)
    ∧ (∀ b : BookingRow, b.user_id = 7 →
        (get_user_lectures ⟨[], 1, [⟨1, 7, "a", "d"⟩, ⟨2, 9, "b", "d"⟩], 3⟩ 7).count b
          = (DB.bookings ⟨[], 1, [⟨1, 7, "a", "d"⟩, ⟨2, 9, "b", "d"⟩], 3⟩).count b)
    ∧ (get_user_lectures ⟨[], 1, [⟨1, 7, "a", "d"⟩, ⟨2, 9, "b", "d"⟩], 3⟩ 7).Pairwise
        (fun a b => a.id < b.id)
    ∧ List.Sublist (get_user_lectures ⟨[], 1, [⟨1, 7, "a", "d"⟩, ⟨2, 9, "b", "d"⟩], 3⟩ 7)
        (DB.bookings ⟨[], 1, [⟨1, 7, "a", "d"⟩, ⟨2, 9, "b", "d"⟩], 3⟩) :=
  C6_user_bookings_scoped_and_ordered ⟨[], 1, [⟨1, 7, "a", "d"⟩, ⟨2, 9, "b", "d"⟩], 3⟩ 7
    (by constructor <;> decide)

/-- Code-point comparison of character lists is total. -/
theorem charListLe_total (a b : List Char) :
    charListLe a b = true ∨ charListLe b a = true := by
  induction a generalizing b with
  | nil => left; rfl
  | cons x xs ih =>
      cases b with
      | nil => right; rfl
      | cons y ys =>
          by_cases hxy : x.toNat = y.toNat
          · rcases ih ys with h | h
            · left; simp [charListLe, hxy, h]
            · right; simp [charListLe, hxy.symm, h]
          · rcases Nat.lt_or_ge x.toNat y.toNat with h | h
            · left; simp [charListLe, hxy, h]
            · have hyx : ¬ y.toNat = x.toNat := fun e => hxy e.symm
              have hlt : y.toNat < x.toNat := by omega
              right; simp [charListLe, hyx, hlt]

/-- Python string comparison is total. -/
theorem pyStrLe_total (a b : String) : pyStrLe a b = true ∨ pyStrLe b a = true :=
  charListLe_total a.toList b.toList

/-- Inserting into an ascending list keeps it ascending. -/
theorem ascSorted_insortAsc (x : String) (l : List String) (h : ascSorted l = true) :
    ascSorted (insortAsc x l) = true := by
  induction l with
  | nil => rfl
  | cons y ys ih =>
      by_cases hxy : pyStrLe x y = true
      · simp [insortAsc, hxy, ascSorted, h]
      · have hyx : pyStrLe y x = true := by
          rcases pyStrLe_total x y with h' | h'
          · exact absurd h' hxy
          · exact h'
        cases ys with
        | nil => simp [insortAsc, hxy, ascSorted, hyx]
        | cons z zs =>
            have hyz : pyStrLe y z = true := by
              simp only [ascSorted, Bool.and_eq_true] at h
              exact h.1
            have hzs : ascSorted (z :: zs) = true := by
              simp only [ascSorted, Bool.and_eq_true] at h
              exact h.2
            by_cases hxz : pyStrLe x z = true
            · simp [insortAsc, hxy, hxz, ascSorted, hyx, hyz, hzs]
            · have ih2 := ih hzs
              simp [insortAsc, hxz] at ih2
              simp [insortAsc, hxy, hxz, ascSorted, hyz, ih2]

/-- Python's `sorted` output is ascending. -/
theorem ascSorted_pySorted (l : List String) : ascSorted (pySorted l) = true := by
  induction l with
  | nil => rfl
  | cons x xs ih => exact ascSorted_insortAsc x (pySorted xs) ih

/-- Insertion is a permutation of consing. -/
theorem insortAsc_perm (x : String) (l : List String) :
    (insortAsc x l).Perm (x :: l) := by
  induction l with
  | nil => exact List.Perm.refl _
  | cons y ys ih =>
      by_cases h : pyStrLe x y = true
      · simp [insortAsc, h]
      · have e : insortAsc x (y :: ys) = y :: insortAsc x ys := by simp [insortAsc, h]
        rw [e]
        exact (ih.cons y).trans (List.Perm.swap x y ys)

/-- Python's `sorted` output is a permutation of its input. -/
theorem pySorted_perm (l : List String) : (pySorted l).Perm l := by
  induction l with
  | nil => exact List.Perm.refl _
  | cons x xs ih => exact (insortAsc_perm x (pySorted xs)).trans (ih.cons x)

/-- Claim C9 amended. `KeyboardBuilder.get_file_base_names` returns the
matching base names sorted ascending (a sorted permutation of the stems
of the matching files), and the directory-creation side effect is
idempotent and never fails on a pre-existing directory; the
`utils.file_utils` variant, by contrast, returns the names in
directory-listing order without sorting (see the counterexample). -/
theorem C9_keyboard_sorted_and_mkdir_idempotent (listing extensions dirs : List String)
    (d : String) :
    ascSorted (keyboard_get_file_base_names listing extensions) = true
    ∧ (keyboard_get_file_base_names listing extensions).Perm
        ((listing.filter (fun f => extensions.contains (pathSuffix f))).map pathStem)
    ∧ (mkdirExistOk dirs d).contains d = true
    ∧ (dirs.contains d = true → mkdirExistOk dirs d = dirs) := by
  refine ⟨ascSorted_pySorted _, pySorted_perm _, ?_, ?_⟩
  · by_cases h : d ∈ dirs
    · simp [mkdirExistOk, h]
    · simp [mkdirExistOk, h]
  · intro h
    have h' : d ∈ dirs := by simpa using h
    simp [mkdirExistOk, h']

/-- Witness for C9 (amended): the keyboard helper sorts the listing
`["b.txt", "a.txt"]` that the file_utils helper left unsorted. -/
theorem C9_keyboard_sorted_and_mkdir_idempotent_witness :
    ascSorted (keyboard_get_file_base_names ["b.txt", "a.txt"] [".txt"]) = true
    ∧ (keyboard_get_file_base_names ["b.txt", "a.txt"] [".txt"]).Perm
        (((["b.txt", "a.txt"] : List String).filter
            (fun f => ([".txt"] : List String).contains (pathSuffix f))).map pathStem)
    ∧ (mkdirExistOk ["books"] "lections").contains "lections" = true
    ∧ ((["books"] : List String).contains "lections" = true →
        mkdirExistOk ["books"] "lections" = ["books"]) :=
  C9_keyboard_sorted_and_mkdir_idempotent ["b.txt", "a.txt"] [".txt"] ["books"] "lections"

/-- Once the cache holds an entry for the argument pair, every further
call returns that entry and leaves the cache unchanged, whatever the
current filesystem state. -/
theorem runCachedCalls_hit (folder : String) (extensions : List String) (r : List String)
    (c : ListingCache) (fss : List (String → List String))
    (hfind : c.find? (fun kv => kv.1 == (folder, extensions))
      = some ((folder, extensions), r)) :
    runCachedCalls folder extensions c fss = (List.replicate fss.length r, c) := by
  induction fss with
  | nil => simp [runCachedCalls]
  | cons fs rest ih =>
      simp [runCachedCalls, cached_get_file_base_names, hfind, ih, List.replicate]

/-- Claim C10. `KeyboardBuilder.get_file_base_names` is memoized per
`(folder, extensions)` pair for the process lifetime: starting from the
empty `lru_cache`, the first call computes the listing from the
filesystem state at that moment, and every later call for the same pair
returns exactly that first listing, whatever the filesystem states at
the later calls. -/
theorem C10_listing_memoized_forever (folder : String) (extensions : List String)
    (fs1 : String → List String) (rest : List (String → List String)) :
    (runCachedCalls folder extensions [] (fs1 :: rest)).1
      = keyboard_get_file_base_names (fs1 folder) extensions
        :: List.replicate rest.length (keyboard_get_file_base_names (fs1 folder) extensions) := by
  have h1 : cached_get_file_base_names [] fs1 folder extensions
      = (keyboard_get_file_base_names (fs1 folder) extensions,
         [((folder, extensions), keyboard_get_file_base_names (fs1 folder) extensions)]) := by
    simp [cached_get_file_base_names]
  have hfind : ([((folder, extensions), keyboard_get_file_base_names (fs1 folder) extensions)]
        : ListingCache).find? (fun kv => kv.1 == (folder, extensions))
      = some ((folder, extensions), keyboard_get_file_base_names (fs1 folder) extensions) := by
    simp [List.find?]
  have h2 := runCachedCalls_hit folder extensions
    (keyboard_get_file_base_names (fs1 folder) extensions)
    [((folder, extensions), keyboard_get_file_base_names (fs1 folder) extensions)] rest hfind
  simp [runCachedCalls, h1, h2]

end AsyncioBot
